import Mathlib

/-!
Verification development for the nxera-auditor repository.

This file gives a shallow embedding of the compliance rule-evaluation
engine (`compliance_engine.py`), the normalisation front door and the
red-flag detectors (`audit_logic.py`), the fraud-scoring pipeline
(`fraud_model.py`), and the jurisdiction filter of `app.py`, together
with theorems settling the specification's claims about them.

Modelling conventions:
* A pandas cell that may be NaN/NaT is an `Option` value; comparisons
  against NaN are `false`, matching pandas semantics.
* Dates are integer day numbers (day 0 = 1970-01-01, a Thursday, so
  pandas `dayofweek` is `(d + 3) % 7` with Monday = 0).
* Amounts are rationals; Python's float `%` (sign of the divisor) is
  `pymod x m = x - m * ⌊x / m⌋`.
* Code that can raise returns `Except String`; a missing DataFrame
  column is the raising mechanism the engine actually encounters, and
  a `DataFrame` records which of the three canonical columns exist.
* Externally loaded state (the legal knowledge base JSON and the
  trained classifier artifact, neither of which is source code under
  audit) is passed in as a parameter.
-/

namespace Nxera

/-- A row of the canonical ledger: `date`, `description`, `amount`,
each `none` when the pandas cell is NaT/NaN. -/
structure Row where
  date : Option ℤ
  description : Option String
  amount : Option ℚ
deriving DecidableEq, Repr

/-- A ledger table: which of the three canonical columns are present,
and the rows. Accessing an absent column raises in pandas. -/
structure DataFrame where
  hasDate : Bool
  hasDescription : Bool
  hasAmount : Bool
  rows : List Row
deriving Repr

/-- pandas `series > c` on a possibly-NaN cell: NaN compares false. -/
def optGT (a : Option ℚ) (c : ℚ) : Bool :=
  match a with
  | some x => decide (c < x)
  | none => false

/-- pandas `series < c` on a possibly-NaN cell: NaN compares false. -/
def optLT (a : Option ℚ) (c : ℚ) : Bool :=
  match a with
  | some x => decide (x < c)
  | none => false

/-- pandas `abs(series) > c` on a possibly-NaN cell. -/
def optAbsGT (a : Option ℚ) (c : ℚ) : Bool :=
  match a with
  | some x => decide (c < |x|)
  | none => false

/-- Python float `%`: result takes the sign of the divisor,
`x % m = x - m * ⌊x / m⌋`. -/
def pymod (x m : ℚ) : ℚ := x - m * ⌊x / m⌋

/-- Embeds `series % m == 0` on a possibly-NaN cell (NaN gives false). -/
def optModEqZero (a : Option ℚ) (m : ℚ) : Bool :=
  match a with
  | some x => decide (pymod x m = 0)
  | none => false

/-- Whether `needle` is an initial segment of `hay`. -/
def charsStartWith : List Char → List Char → Bool
  | [], _ => true
  | _ :: _, [] => false
  | a :: as, b :: bs => a == b && charsStartWith as bs

/-- Whether `needle` occurs as a contiguous segment of `hay` (the
empty needle occurs in every list). -/
def charsContain (hay needle : List Char) : Bool :=
  charsStartWith needle hay ||
    match hay with
    | [] => false
    | _ :: t => charsContain t needle

/-- Python `pat in s` substring test. -/
def pyIn (pat s : String) : Bool :=
  charsContain s.data pat.data

/-- Embeds `str.lower()`. -/
def strLower (s : String) : String := ⟨s.data.map Char.toLower⟩

/-- The characters of a string with surrounding whitespace removed,
as Python `str.strip()`. -/
def trimChars (l : List Char) : List Char :=
  ((l.dropWhile Char.isWhitespace).reverse.dropWhile Char.isWhitespace).reverse

/-- Python `str.strip()`. -/
def strStrip (s : String) : String := ⟨trimChars s.data⟩

/-- pandas `series.str.contains(pat, case=False, na=False)`:
case-insensitive containment, false on NaN. -/
def descContains (d : Option String) (pat : String) : Bool :=
  match d with
  | some s => pyIn (strLower pat) (strLower s)
  | none => false

/-- pandas `dayofweek` (Monday = 0) of a day number. -/
def dayofweek (d : ℤ) : ℤ := (d + 3) % 7

/-- Embeds `pd.to_datetime(d.date).dt.dayofweek.isin([5,6])` per row: weekend
test, false on NaT. -/
def isWeekend (r : Row) : Bool :=
  match r.date with
  | some d => decide (dayofweek d = 5 ∨ dayofweek d = 6)
  | none => false

/-- Embeds `df[df.amount > 0]["amount"].sum()`: the revenue total; pandas sum
skips NaN. -/
def revenueSum (rows : List Row) : ℚ :=
  ((rows.filterMap Row.amount).filter (fun x => decide (0 < x))).sum

/-- The duplicate key of `duplicated(subset=["amount","description"])`;
pandas treats NaN as equal to NaN for duplicate detection. -/
def dupKey (r : Row) : Option ℚ × Option String := (r.amount, r.description)

/-- Embeds `d.duplicated(subset=["amount","description"], keep=False)` per
row: some other row shares the key. -/
def isDupe (rows : List Row) (r : Row) : Bool :=
  rows.countP (fun x => dupKey x = dupKey r) ≥ 2

/-- The error message of pandas attribute access on the missing
column `amount`. -/
def errAmount : String := "DataFrame has no column amount"

/-- The error message for the missing column `description`. -/
def errDescription : String := "DataFrame has no column description"

/-- The error message for the missing column `date`. -/
def errDate : String := "DataFrame has no column date"

/-- A compliance rule, as in the `Rule` dataclass of
`compliance_engine.py`: identity, citation, severity, a predicate and
an evidence sampler, both of which may raise. -/
structure Rule where
  id : String
  standard : String
  clause : String
  description : String
  severity : String
  check : DataFrame → Except String Bool
  sample : DataFrame → Except String (List Row)

/-- IFRS15_NEGREV check: `(df[df.amount > 0]["amount"] < 0).any()`. -/
def IFRS15_check (df : DataFrame) : Except String Bool :=
  if df.hasAmount then
    .ok ((df.rows.filter (fun r => optGT r.amount 0)).any (fun r => optLT r.amount 0))
  else .error errAmount

/-- IFRS15_NEGREV sample: `d[(d.amount > 0) & (d.amount < 0)]`. -/
def IFRS15_sample (df : DataFrame) : Except String (List Row) :=
  if df.hasAmount then
    .ok (df.rows.filter (fun r => optGT r.amount 0 && optLT r.amount 0))
  else .error errAmount

/-- IFRS16_LEASE_DESC check: description contains "lease"
case-insensitively. -/
def IFRS16_check (df : DataFrame) : Except String Bool :=
  if df.hasDescription then
    .ok (df.rows.any (fun r => descContains r.description "lease"))
  else .error errDescription

/-- IFRS16_LEASE_DESC sample. -/
def IFRS16_sample (df : DataFrame) : Except String (List Row) :=
  if df.hasDescription then
    .ok (df.rows.filter (fun r => descContains r.description "lease"))
  else .error errDescription

/-- ASC606_UNEARNED check: description contains "unearned"
case-insensitively. -/
def ASC606_check (df : DataFrame) : Except String Bool :=
  if df.hasDescription then
    .ok (df.rows.any (fun r => descContains r.description "unearned"))
  else .error errDescription

/-- ASC606_UNEARNED sample. -/
def ASC606_sample (df : DataFrame) : Except String (List Row) :=
  if df.hasDescription then
    .ok (df.rows.filter (fun r => descContains r.description "unearned"))
  else .error errDescription

/-- GAAP_RND_NUMBERS predicate:
`(df.amount % 1000 == 0) & (abs(df.amount) > 20000)`. -/
def gaapRndPred (r : Row) : Bool :=
  optModEqZero r.amount 1000 && optAbsGT r.amount 20000

/-- GAAP_RND_NUMBERS check. -/
def GAAP_RND_check (df : DataFrame) : Except String Bool :=
  if df.hasAmount then
    .ok (df.rows.any gaapRndPred)
  else .error errAmount

/-- GAAP_RND_NUMBERS sample. -/
def GAAP_RND_sample (df : DataFrame) : Except String (List Row) :=
  if df.hasAmount then
    .ok (df.rows.filter gaapRndPred)
  else .error errAmount

/-- ISA240_ROUNDED predicate:
`(d.amount < 0) & (abs(d.amount) % 1000 == 0) & (abs(d.amount) > 20000)`. -/
def isa240Pred (r : Row) : Bool :=
  optLT r.amount 0 && optModEqZero (r.amount.map (fun x => |x|)) 1000
    && optAbsGT r.amount 20000

/-- ISA240_ROUNDED check. -/
def ISA240_check (df : DataFrame) : Except String Bool :=
  if df.hasAmount then
    .ok (df.rows.any isa240Pred)
  else .error errAmount

/-- ISA240_ROUNDED sample. -/
def ISA240_sample (df : DataFrame) : Except String (List Row) :=
  if df.hasAmount then
    .ok (df.rows.filter isa240Pred)
  else .error errAmount

/-- ISA500_MISSING_DESC check:
`d.description.isna().any() or (d.description == "").any()`. -/
def ISA500_check (df : DataFrame) : Except String Bool :=
  if df.hasDescription then
    .ok (df.rows.any (fun r => r.description = none)
    || df.rows.any (fun r => r.description = some ""))
  else .error errDescription

/-- ISA500_MISSING_DESC sample: `d[d.description.isna() | (d.description == "")]`. -/
def ISA500_sample (df : DataFrame) : Except String (List Row) :=
  if df.hasDescription then
    .ok (df.rows.filter (fun r => r.description = none || r.description = some ""))
  else .error errDescription

/-- ISA530_SAME_AMOUNT_DUPES check. -/
def ISA530_check (df : DataFrame) : Except String Bool :=
  if !df.hasAmount then .error errAmount
  else if !df.hasDescription then .error errDescription
  else .ok (df.rows.any (isDupe df.rows))

/-- ISA530_SAME_AMOUNT_DUPES sample. -/
def ISA530_sample (df : DataFrame) : Except String (List Row) :=
  if !df.hasAmount then .error errAmount
  else if !df.hasDescription then .error errDescription
  else .ok (df.rows.filter (isDupe df.rows))

/-- PK_FBR_500K check: `(abs(d["amount"]) > 500000).any()`. -/
def PK500K_check (df : DataFrame) : Except String Bool :=
  if df.hasAmount then
    .ok (df.rows.any (fun r => optAbsGT r.amount 500000))
  else .error errAmount

/-- PK_FBR_500K sample. -/
def PK500K_sample (df : DataFrame) : Except String (List Row) :=
  if df.hasAmount then
    .ok (df.rows.filter (fun r => optAbsGT r.amount 500000))
  else .error errAmount

/-- PK_FBR_WEEKEND_TXNS check. -/
def PKWKND_check (df : DataFrame) : Except String Bool :=
  if df.hasDate then
    .ok (df.rows.any isWeekend)
  else .error errDate

/-- PK_FBR_WEEKEND_TXNS sample. -/
def PKWKND_sample (df : DataFrame) : Except String (List Row) :=
  if df.hasDate then
    .ok (df.rows.filter isWeekend)
  else .error errDate

/-- MAT_EXP_5PCT predicate over a ledger: expense rows whose magnitude
exceeds 5 percent of total revenue. -/
def matExpPred (rows : List Row) (r : Row) : Bool :=
  optLT r.amount 0 && optAbsGT r.amount (5 / 100 * revenueSum rows)

/-- MAT_EXP_5PCT check: `not df[...].empty`. -/
def MATEXP_check (df : DataFrame) : Except String Bool :=
  if df.hasAmount then
    .ok (!(df.rows.filter (matExpPred df.rows)).isEmpty)
  else .error errAmount

/-- MAT_EXP_5PCT sample. -/
def MATEXP_sample (df : DataFrame) : Except String (List Row) :=
  if df.hasAmount then
    .ok (df.rows.filter (matExpPred df.rows))
  else .error errAmount

/-- Rule IFRS15_NEGREV of `build_catalogue`. -/
def ruleIFRS15 : Rule :=
  ⟨"IFRS15_NEGREV", "IFRS‑15", "9", "Revenue recorded as negative", "High",
    IFRS15_check, IFRS15_sample⟩

/-- Rule IFRS16_LEASE_DESC of `build_catalogue`. -/
def ruleIFRS16 : Rule :=
  ⟨"IFRS16_LEASE_DESC", "IFRS‑16", "24", "Potential lease expenses found", "Med",
    IFRS16_check, IFRS16_sample⟩

/-- Rule ASC606_UNEARNED of `build_catalogue`. -/
def ruleASC606 : Rule :=
  ⟨"ASC606_UNEARNED", "US‑GAAP ASC‑606", "45‑1", "Line item indicates unearned revenue",
    "Med", ASC606_check, ASC606_sample⟩

/-- Rule GAAP_RND_NUMBERS of `build_catalogue`. -/
def ruleGAAPRND : Rule :=
  ⟨"GAAP_RND_NUMBERS", "US‑GAAP", "240", "Rounded amounts indicating potential fraud",
    "High", GAAP_RND_check, GAAP_RND_sample⟩

/-- Rule ISA240_ROUNDED of `build_catalogue`. -/
def ruleISA240 : Rule :=
  ⟨"ISA240_ROUNDED", "ISA‑240", "32(a)", "Rounded cash withdrawals > 20,000", "High",
    ISA240_check, ISA240_sample⟩

/-- Rule ISA500_MISSING_DESC of `build_catalogue`. -/
def ruleISA500 : Rule :=
  ⟨"ISA500_MISSING_DESC", "ISA‑500", "A12", "Transactions missing descriptions", "High",
    ISA500_check, ISA500_sample⟩

/-- Rule ISA530_SAME_AMOUNT_DUPES of `build_catalogue`. -/
def ruleISA530 : Rule :=
  ⟨"ISA530_SAME_AMOUNT_DUPES", "ISA‑530", "B9", "Duplicate amounts with same description",
    "Med", ISA530_check, ISA530_sample⟩

/-- Rule PK_FBR_500K of `build_catalogue`. -/
def rulePK500K : Rule :=
  ⟨"PK_FBR_500K", "Pakistan FBR", "SRO‑586(2017)",
    "Single payment > 500,000 must be documented", "Med", PK500K_check, PK500K_sample⟩

/-- Rule PK_FBR_WEEKEND_TXNS of `build_catalogue`. -/
def rulePKWKND : Rule :=
  ⟨"PK_FBR_WEEKEND_TXNS", "Pakistan FBR", "2022 Circular",
    "Transactions recorded on weekends", "Low", PKWKND_check, PKWKND_sample⟩

/-- Rule MAT_EXP_5PCT of `build_catalogue`. -/
def ruleMATEXP : Rule :=
  ⟨"MAT_EXP_5PCT", "ISA‑320", "10", "Single expense >5 % of total revenue", "Low",
    MATEXP_check, MATEXP_sample⟩

/-- Embeds `build_catalogue()`: the ordered rule catalogue. -/
def build_catalogue : List Rule :=
  [ruleIFRS15, ruleIFRS16, ruleASC606, ruleGAAPRND, ruleISA240,
   ruleISA500, ruleISA530, rulePK500K, rulePKWKND, ruleMATEXP]

/-- An entry of the legal knowledge base `LAW_KB`, loaded at process
start from `compliance_rules.json` (an external data file, not source
under audit); keyed by rule id. -/
structure KBEntry where
  law_standard : String
  jurisdiction : String
  description : String
  applicability : String
  automatable : Bool
deriving DecidableEq, Repr

/-- A finding dict emitted by `evaluate`; the four enrichment fields
are present only when the rule id is in the knowledge base. -/
structure Finding where
  Rule : String
  Standard : String
  Clause : String
  Severity : String
  Detail : String
  LawStandard : Option String
  Jurisdiction : Option String
  LawDescription : Option String
  Applicability : Option String
deriving DecidableEq, Repr

/-- Build one finding dict for rule `r` with detail text `detail`,
merging knowledge-base enrichment when `kb r.id` is present. -/
def mkFinding (kb : String → Option KBEntry) (r : Rule) (detail : String) : Finding :=
  match kb r.id with
  | some e =>
    ⟨r.id, r.standard, r.clause, r.severity, detail,
      some e.law_standard, some e.jurisdiction, some e.description, some e.applicability⟩
  | none => ⟨r.id, r.standard, r.clause, r.severity, detail, none, none, none, none⟩

/-- One iteration of the `for rule in catalogue` loop of `evaluate`:
a raising `check` or `sample` yields an engine-error finding, a true
`check` yields a finding whose detail counts the sampled rows, a false
`check` yields nothing. -/
def evalRule (kb : String → Option KBEntry) (df : DataFrame) (r : Rule) :
    Option Finding :=
  match r.check df with
  | .error e => some (mkFinding kb r ("[Engine Error] " ++ e))
  | .ok false => none
  | .ok true =>
    match r.sample df with
    | .error e => some (mkFinding kb r ("[Engine Error] " ++ e))
    | .ok rows =>
      some (mkFinding kb r
        (if rows.isEmpty then "Breach detected"
         else toString rows.length ++ " offending rows"))

/-- Embeds `evaluate` run over an arbitrary catalogue: the findings collected
in catalogue order. -/
def evaluateCat (kb : String → Option KBEntry) (rules : List Rule)
    (df : DataFrame) : List Finding :=
  rules.filterMap (evalRule kb df)

/-- Embeds `evaluate(df)` of `compliance_engine.py`: the catalogue is rebuilt
fresh and evaluated rule by rule with per-rule fault containment. -/
def evaluate (kb : String → Option KBEntry) (df : DataFrame) : List Finding :=
  evaluateCat kb build_catalogue df

/-- The knowledge-base lookup when every rule id misses (enrichment
absence is tolerated by the engine). -/
def kbNone : String → Option KBEntry := fun _ => none

/-- A raw spreadsheet cell as seen by `normalise_df`: a number, a
text, an already-parsed date, or a missing value. -/
inductive Value where
  | num (q : ℚ)
  | str (s : String)
  | date (d : ℤ)
  | nan
deriving DecidableEq, Repr

/-- A raw uploaded table, column-major: column names with their cells. -/
def RawFrame : Type := List (String × List Value)

/-- The column-alias dictionary of `normalise_df`. -/
def applyAlias (c : String) : String :=
  if c = "transaction_date" then "date"
  else if c = "trans_date" then "date"
  else if c = "details" then "description"
  else if c = "desc" then "description"
  else if c = "value" then "amount"
  else if c = "amt" then "amount"
  else if c = "amount" then "amount"
  else c

/-- Embeds `df.loc[:, ~df.columns.duplicated()]`: keep the first column of
each name, drop later duplicates. -/
def dedupCols : List (String × List Value) → List String → List (String × List Value)
  | [], _ => []
  | c :: cs, seen =>
    if c.1 ∈ seen then dedupCols cs seen else c :: dedupCols cs (c.1 :: seen)

/-- The columns of a raw frame after lower-casing, stripping, alias
renaming and duplicate removal — the state at the required-columns
check of `normalise_df`. -/
def normCols (fr : RawFrame) : List (String × List Value) :=
  dedupCols (fr.map (fun p => (applyAlias (strStrip (strLower p.1)), p.2))) []

/-- Fetch a column by name (first occurrence). -/
def getCol (cols : List (String × List Value)) (name : String) : List Value :=
  ((cols.find? (fun p => p.1 == name)).map Prod.snd).getD []

/-- The numeric value of a non-empty all-digit character list. -/
def digitsToNat : List Char → ℕ → Option ℕ
  | [], acc => some acc
  | c :: cs, acc =>
    if c.isDigit then digitsToNat cs (acc * 10 + (c.toNat - 48)) else none

/-- Parse an unsigned decimal numeral (digits with an optional
fractional part). -/
def parseUnsigned (t : List Char) : Option ℚ :=
  let a := t.takeWhile (fun c => c ≠ '.')
  let rest := t.dropWhile (fun c => c ≠ '.')
  if a.isEmpty then none
  else
    match rest with
    | [] => (digitsToNat a 0).map (fun n => (n : ℚ))
    | _ :: b =>
      if b.isEmpty || b.contains '.' then none
      else
        match digitsToNat a 0, digitsToNat b 0 with
        | some n, some m => some ((n : ℚ) + (m : ℚ) / 10 ^ b.length)
        | _, _ => none

/-- Parse a plain decimal numeral, as `pd.to_numeric` does on a
numeric string (sign, digits, optional fractional digits). -/
def parseDecimal (s : String) : Option ℚ :=
  match trimChars s.data with
  | '-' :: t => (parseUnsigned t).map Neg.neg
  | t => parseUnsigned t

/-- Embeds `pd.to_numeric(cell, errors="coerce")`: unparseable cells become
NaN. -/
def toNumeric (v : Value) : Option ℚ :=
  match v with
  | .num q => some q
  | .str s => parseDecimal s
  | .date _ => none
  | .nan => none

/-- Embeds `pd.to_datetime(cell, errors="coerce")`: non-dates become NaT. -/
def toDate (v : Value) : Option ℤ :=
  match v with
  | .date d => some d
  | _ => none

/-- The description cell kept as text; a missing cell stays missing. -/
def toDescr (v : Value) : Option String :=
  match v with
  | .str s => some s
  | .num q => some (toString q)
  | .date d => some (toString d)
  | .nan => none

/-- Embeds `normalise_df` of `audit_logic.py`: canonicalise column names,
fail fast when a required column is absent, coerce types, drop rows
with null date or amount, sort ascending by date. -/
def normalise_df (fr : RawFrame) : Except String (List Row) :=
  let cols := normCols fr
  let names := cols.map Prod.fst
  if names.contains "date" && names.contains "description" && names.contains "amount" then
    let dates := (getCol cols "date").map toDate
    let descrs := (getCol cols "description").map toDescr
    let amounts := (getCol cols "amount").map toNumeric
    let rows := (dates.zip (descrs.zip amounts)).map
      (fun p => Row.mk p.1 p.2.1 p.2.2)
    let kept := rows.filter (fun r => !r.date.isNone && !r.amount.isNone)
    .ok (List.insertionSort (fun a b => a.date.getD 0 ≤ b.date.getD 0) kept)
  else
    .error ("Your data must have columns for date, description, and amount. Found: "
      ++ toString names)

/-- Weekend test of `detect_red_flags`: `d.date.dt.dayofweek >= 5`. -/
def redFlagWeekend (r : Row) : Bool :=
  match r.date with
  | some d => decide (5 ≤ dayofweek d)
  | none => false

/-- Rounded-cash test of `detect_red_flags`:
`(d.amount < 0) & (d.amount % 1000 == 0) & (abs(d.amount) > 20000)`. -/
def redFlagRounded (r : Row) : Bool :=
  optLT r.amount 0 && optModEqZero r.amount 1000 && optAbsGT r.amount 20000

/-- Blank-description test of `detect_red_flags`:
`d.description.isna() | (d.description.str.strip() == "")`. -/
def redFlagBlank (r : Row) : Bool :=
  match r.description with
  | none => true
  | some s => decide (strStrip s = "")

/-- Embeds `detect_red_flags` of `audit_logic.py`: each detector's non-empty
subset, tagged with its flag label, in source order. -/
def detect_red_flags (df : DataFrame) : Except String (List (List Row × String)) :=
  if !df.hasDate then .error errDate
  else if !df.hasAmount then .error errAmount
  else if !df.hasDescription then .error errDescription
  else let w := df.rows.filter redFlagWeekend
  let rnd := df.rows.filter redFlagRounded
  let b := df.rows.filter redFlagBlank
  .ok ((if w.isEmpty then [] else [(w, "Weekend")])
    ++ (if rnd.isEmpty then [] else [(rnd, "Rounded cash")])
    ++ (if b.isEmpty then [] else [(b, "Missing desc")]))

/-- A feature row of `_feature_df`: elapsed time, magnitude, and the
28 neutral placeholder slots V1..V28. -/
structure Feature where
  Time : ℚ
  Amount : ℚ
  vs : List ℚ
deriving DecidableEq, Repr

/-- Embeds `df["date"].min()` skipping NaT (NaT when empty or all-NaT). -/
def minDate (rows : List Row) : Option ℤ :=
  (rows.filterMap Row.date).min?

/-- One row of `_feature_df`: `Time` is seconds since the earliest
date (NaT rows contribute 0 after `fillna(0)`), `Amount` is the
absolute amount (NaN filled with 0), V1..V28 are 0.0. -/
def featureRow (dmin : Option ℤ) (r : Row) : Feature :=
  { Time :=
      match r.date, dmin with
      | some d, some m => ((d - m : ℤ) : ℚ) * 86400
      | _, _ => 0,
    Amount := match r.amount with | some q => |q| | none => 0,
    vs := List.replicate 28 0 }

/-- Embeds `_feature_df` of `fraud_model.py`: requires the date and amount
columns, one feature row per ledger row in order. -/
def feature_df (df : DataFrame) : Except String (List Feature) :=
  if !df.hasDate then .error errDate
  else if !df.hasAmount then .error errAmount
  else .ok (df.rows.map (featureRow (minDate df.rows)))

/-- Embeds `.round(1)`: round to one decimal place. -/
def round1 (q : ℚ) : ℚ := ((round (q * 10) : ℤ) : ℚ) / 10

/-- Embeds `score_transactions` of `fraud_model.py`, parametrised by whether
the model artifact file exists and by the loaded classifier's
probability-of-positive-class output on a feature row. -/
def score_transactions (modelPresent : Bool) (predict : Feature → ℚ)
    (df : DataFrame) : Except String (List ℚ) :=
  if !modelPresent then
    .error "Model file fraud_cc_model.pkl not found. Train it using train_creditcard_fraud.py."
  else
    match feature_df df with
    | .error e => .error e
    | .ok feats => .ok (feats.map (fun f => round1 (predict f * 100)))

/-- Embeds `sorted(contrib, key=lambda x: abs(x[1]), reverse=True)`: sort
feature attributions by descending absolute value. -/
def sortByAbsDesc (l : List (String × ℚ)) : List (String × ℚ) :=
  List.insertionSort (fun a b => |b.2| ≤ |a.2|) l

/-- The `feature_map` glossary of
`shap_natural_language_explanation`. -/
def featureGlossary : List (String × String) :=
  [("Amount", "large amount"), ("Time", "date anomaly"),
   ("V1", "unusual pattern (V1)"), ("V2", "unusual pattern (V2)"),
   ("V3", "unusual pattern (V3)")]

/-- Embeds `feature_map.get(f, f)`: glossary lookup with pass-through for
unmapped names. -/
def glossaryMap (f : String) : String :=
  ((featureGlossary.find? (fun p => p.1 == f)).map Prod.snd).getD f

/-- Embeds `[f for f, v in contrib_sorted[:3] if abs(v) > 0.01]`: the top 3
attributions by magnitude, then thresholded. -/
def topFeatures (contrib : List (String × ℚ)) : List String :=
  ((sortByAbsDesc contrib).take 3).filterMap
    (fun p => if (1 : ℚ) / 100 < |p.2| then some p.1 else none)

/-- The reasons list: surviving feature names mapped through the
glossary. -/
def reasonsOf (contrib : List (String × ℚ)) : List String :=
  (topFeatures contrib).map glossaryMap

/-- The sentence composed by `shap_natural_language_explanation`,
given the row's attribution vector and the formatted risk
percentage. -/
def shap_explanation (contrib : List (String × ℚ)) (riskStr : String) : String :=
  if (topFeatures contrib).isEmpty then
    "This transaction was flagged as " ++ riskStr ++ "% risk (no dominant feature detected)."
  else
    "This transaction was flagged as " ++ riskStr ++ "% risk due to: "
      ++ String.intercalate ", " (reasonsOf contrib) ++ "."

/-- The `region_map` of `app.py`: UI region name to the display label
matched against each finding's Standard field. -/
def region_map : List (String × String) :=
  [("Pakistan (FBR)", "Pakistan FBR"), ("US (GAAP)", "US‑GAAP"), ("UK (IFRS)", "IFRS")]

/-- Embeds `region_map.get(region, "US‑GAAP")`. -/
def regionKey (region : String) : String :=
  ((region_map.find? (fun p => p.1 == region)).map Prod.snd).getD "US‑GAAP"

/-- Embeds `[c for c in all_compliance if region_key in c.get("Standard", "")]`:
the jurisdiction post-filter over the findings list. -/
def filterByRegion (region : String) (fs : List Finding) : List Finding :=
  fs.filter (fun c => pyIn (regionKey region) c.Standard)

/-- A one-row ledger whose description mentions a lease. -/
def dfLease : DataFrame :=
  ⟨true, true, true, [⟨some 0, some "Office Lease", some 100⟩]⟩

/-- A ledger table lacking the required `description` column. -/
def dfNoDesc : DataFrame :=
  ⟨true, false, true, [⟨some 0, none, some (-25000)⟩]⟩

/-- A complete ledger with a single rounded cash withdrawal. -/
def dfRounded : DataFrame :=
  ⟨true, true, true, [⟨some 0, some "cash", some (-25000)⟩]⟩

/-- The empty ledger (all three columns present, zero rows). -/
def dfEmpty : DataFrame := ⟨true, true, true, []⟩

/-- A raw upload lacking any date-like column. -/
def frNoDate : RawFrame :=
  [("Desc", [Value.str "x"]), ("Amt", [Value.num 5])]

/-- Sample findings used to exercise the jurisdiction filter. -/
def fsSample : List Finding :=
  [mkFinding kbNone ruleGAAPRND "1 offending rows",
   mkFinding kbNone ruleIFRS16 "Breach detected"]

instance {ε α : Type} [DecidableEq ε] [DecidableEq α] : DecidableEq (Except ε α) :=
  fun a b =>
  match a, b with
  | .ok x, .ok y => decidable_of_iff (x = y) (by simp)
  | .error x, .error y => decidable_of_iff (x = y) (by simp)
  | .ok _, .error _ => isFalse (by simp)
  | .error _, .ok _ => isFalse (by simp)

/-! ## Engine lemmas -/

theorem mkFinding_Rule (kb : String → Option KBEntry) (r : Rule) (d : String) :
    (mkFinding kb r d).Rule = r.id := by
  unfold mkFinding; cases kb r.id <;> rfl

theorem mkFinding_Severity (kb : String → Option KBEntry) (r : Rule) (d : String) :
    (mkFinding kb r d).Severity = r.severity := by
  unfold mkFinding; cases kb r.id <;> rfl

theorem mkFinding_Detail (kb : String → Option KBEntry) (r : Rule) (d : String) :
    (mkFinding kb r d).Detail = d := by
  unfold mkFinding; cases kb r.id <;> rfl

theorem evalRule_Rule (kb : String → Option KBEntry) (df : DataFrame) (r : Rule)
    (f : Finding) (h : evalRule kb df r = some f) : f.Rule = r.id := by
  unfold evalRule at h
  cases hc : r.check df with
  | error e =>
    rw [hc] at h
    injection h with h
    rw [← h, mkFinding_Rule]
  | ok b =>
    rw [hc] at h
    cases b with
    | false => exact absurd h (by simp)
    | true =>
      cases hs : r.sample df with
      | error e =>
        rw [hs] at h
        injection h with h
        rw [← h, mkFinding_Rule]
      | ok rows =>
        rw [hs] at h
        injection h with h
        rw [← h, mkFinding_Rule]

theorem evalRule_isSome_of_check_true (kb : String → Option KBEntry) (df : DataFrame)
    (r : Rule) (h : r.check df = .ok true) : (evalRule kb df r).isSome := by
  unfold evalRule
  rw [h]
  cases r.sample df <;> simp

theorem evalRule_eq_none_of_check_false (kb : String → Option KBEntry) (df : DataFrame)
    (r : Rule) (h : r.check df = .ok false) : evalRule kb df r = none := by
  unfold evalRule
  rw [h]

theorem evaluateCat_cons_none (kb : String → Option KBEntry) (df : DataFrame)
    (a : Rule) (tl : List Rule) (he : evalRule kb df a = none) :
    evaluateCat kb (a :: tl) df = evaluateCat kb tl df := by
  simp only [evaluateCat, List.filterMap_cons, he]

theorem evaluateCat_cons_some (kb : String → Option KBEntry) (df : DataFrame)
    (a : Rule) (tl : List Rule) (f : Finding) (he : evalRule kb df a = some f) :
    evaluateCat kb (a :: tl) df = f :: evaluateCat kb tl df := by
  simp only [evaluateCat, List.filterMap_cons, he]

theorem countP_evaluateCat_eq_zero (kb : String → Option KBEntry) (df : DataFrame)
    (rules : List Rule) (id0 : String) (h : ∀ r ∈ rules, r.id ≠ id0) :
    (evaluateCat kb rules df).countP (fun f => f.Rule == id0) = 0 := by
  induction rules with
  | nil => rfl
  | cons a tl ih =>
    have ha : a.id ≠ id0 := h a (List.mem_cons_self a tl)
    have htl : ∀ r ∈ tl, r.id ≠ id0 := fun r hr => h r (List.mem_cons_of_mem a hr)
    cases he : evalRule kb df a with
    | none =>
      rw [evaluateCat_cons_none kb df a tl he]
      exact ih htl
    | some f =>
      have hf : (f.Rule == id0) = false := by
        refine beq_eq_false_iff_ne.mpr ?_
        rw [evalRule_Rule kb df a f he]
        exact ha
      rw [evaluateCat_cons_some kb df a tl f he, List.countP_cons, hf, ih htl]
      simp

theorem countP_evaluateCat (kb : String → Option KBEntry) (df : DataFrame)
    (rules : List Rule) (r : Rule) (hmem : r ∈ rules)
    (hnodup : (rules.map Rule.id).Nodup) :
    (evaluateCat kb rules df).countP (fun f => f.Rule == r.id)
      = if (evalRule kb df r).isSome then 1 else 0 := by
  induction rules with
  | nil => cases hmem
  | cons a tl ih =>
    have hnd : (tl.map Rule.id).Nodup := (List.nodup_cons.mp hnodup).2
    have hnid : a.id ∉ tl.map Rule.id := (List.nodup_cons.mp hnodup).1
    rcases List.mem_cons.mp hmem with rfl | hmem'
    · have hz : (evaluateCat kb tl df).countP (fun f => f.Rule == r.id) = 0 := by
        refine countP_evaluateCat_eq_zero kb df tl r.id (fun s hs heq => ?_)
        exact hnid (heq ▸ List.mem_map_of_mem Rule.id hs)
      cases he : evalRule kb df r with
      | none =>
        rw [evaluateCat_cons_none kb df r tl he, hz]
        simp [he]
      | some f =>
        have hf : (f.Rule == r.id) = true :=
          beq_iff_eq.mpr (evalRule_Rule kb df r f he)
        rw [evaluateCat_cons_some kb df r tl f he, List.countP_cons, hf, hz]
        simp [he]
    · have hne : a.id ≠ r.id := by
        intro hEq
        exact hnid (hEq ▸ List.mem_map_of_mem Rule.id hmem')
      cases he : evalRule kb df a with
      | none =>
        rw [evaluateCat_cons_none kb df a tl he]
        exact ih hmem' hnd
      | some f =>
        have hf : (f.Rule == r.id) = false := by
          refine beq_eq_false_iff_ne.mpr ?_
          rw [evalRule_Rule kb df a f he]
          exact hne
        rw [evaluateCat_cons_some kb df a tl f he, List.countP_cons, hf, ih hmem' hnd]
        simp

theorem catalogue_ids_nodup : (build_catalogue.map Rule.id).Nodup := by decide

/-! ## Claim C1 -/

/-- C1: for every ledger and every catalogue rule, a `check` that
returns true without raising yields exactly one finding carrying that
rule's id, and a `check` that returns false without raising yields
none. -/
theorem check_outcome_determines_findings (kb : String → Option KBEntry)
    (df : DataFrame) (r : Rule) (hmem : r ∈ build_catalogue) :
    (r.check df = .ok true →
      (evaluate kb df).countP (fun f => f.Rule == r.id) = 1)
    ∧ (r.check df = .ok false →
      (evaluate kb df).countP (fun f => f.Rule == r.id) = 0) := by
  constructor
  · intro h
    have := countP_evaluateCat kb df build_catalogue r hmem catalogue_ids_nodup
    rwa [if_pos (evalRule_isSome_of_check_true kb df r h)] at this
  · intro h
    have := countP_evaluateCat kb df build_catalogue r hmem catalogue_ids_nodup
    rwa [evalRule_eq_none_of_check_false kb df r h, if_neg (by simp)] at this

/-- C1 witness: on the lease ledger the IFRS16 rule's check is true
and exactly one finding carries its id. -/
theorem check_outcome_determines_findings_witness :
    ruleIFRS16.check dfLease = .ok true
    ∧ (evaluate kbNone dfLease).countP (fun f => f.Rule == ruleIFRS16.id) = 1 :=
  ⟨by decide,
   (check_outcome_determines_findings kbNone dfLease ruleIFRS16
      (by simp [build_catalogue])).1 (by decide)⟩

/-! ## Claim C2 -/

/-- C2: a rule whose `check` (or whose `sample`, after a true check)
raises still contributes a finding with detail `"[Engine Error] "`
followed by the message and with the rule's own severity, while every
rule before and after it contributes its findings unchanged and in
catalogue order. -/
theorem engine_error_fault_isolation (kb : String → Option KBEntry) (df : DataFrame)
    (xs ys : List Rule) (r : Rule) (e : String)
    (h : r.check df = .error e ∨ (r.check df = .ok true ∧ r.sample df = .error e)) :
    evaluate kb df = evaluateCat kb build_catalogue df
    ∧ evaluateCat kb (xs ++ r :: ys) df
        = evaluateCat kb xs df
          ++ mkFinding kb r ("[Engine Error] " ++ e) :: evaluateCat kb ys df
    ∧ (mkFinding kb r ("[Engine Error] " ++ e)).Severity = r.severity
    ∧ (mkFinding kb r ("[Engine Error] " ++ e)).Detail = "[Engine Error] " ++ e := by
  have hr : evalRule kb df r = some (mkFinding kb r ("[Engine Error] " ++ e)) := by
    unfold evalRule
    rcases h with h | ⟨h1, h2⟩
    · rw [h]
    · rw [h1, h2]
  refine ⟨rfl, ?_, mkFinding_Severity kb r _, mkFinding_Detail kb r _⟩
  simp only [evaluateCat, List.filterMap_append, List.filterMap_cons, hr]

/-- C2 witness: on a ledger with no description column the IFRS16
check raises, yet the rules around it are evaluated in place. -/
theorem engine_error_fault_isolation_witness :
    ruleIFRS16.check dfNoDesc = .error errDescription
    ∧ evaluateCat kbNone ([ruleIFRS15] ++ ruleIFRS16 :: [ruleASC606]) dfNoDesc
        = evaluateCat kbNone [ruleIFRS15] dfNoDesc
          ++ mkFinding kbNone ruleIFRS16 ("[Engine Error] " ++ errDescription)
            :: evaluateCat kbNone [ruleASC606] dfNoDesc :=
  ⟨by decide,
   (engine_error_fault_isolation kbNone dfNoDesc [ruleIFRS15] [ruleASC606]
      ruleIFRS16 errDescription (Or.inl (by decide))).2.1⟩

/-! ## Claim C3 -/

theorem ifrs15_any_false (rows : List Row) :
    ((rows.filter (fun r => optGT r.amount 0)).any (fun r => optLT r.amount 0)) = false := by
  rw [List.any_eq_false]
  intro x hx
  have hmem := List.mem_filter.mp hx
  cases hxa : x.amount with
  | none => simp [optLT, hxa]
  | some q =>
    have hq : 0 < q := by simpa [optGT, hxa] using hmem.2
    simp only [optLT, hxa, decide_eq_true_eq]
    exact not_lt.mpr hq.le

theorem ifrs15_filter_nil (rows : List Row) :
    rows.filter (fun r => optGT r.amount 0 && optLT r.amount 0) = [] := by
  rw [List.filter_eq_nil_iff]
  intro x _
  cases hxa : x.amount with
  | none => simp [optGT, optLT, hxa]
  | some q =>
    simp only [optGT, optLT, hxa, Bool.and_eq_true, decide_eq_true_eq, not_and]
    intro h0
    exact not_lt.mpr h0.le

/-- C3: on every ledger with an amount column, the IFRS15_NEGREV
check is false, its sample is empty, and `evaluate` never emits a
finding with its id — its predicate is unsatisfiable. -/
theorem negrev_rule_vacuous (kb : String → Option KBEntry) (df : DataFrame)
    (h : df.hasAmount = true) :
    ruleIFRS15.check df = .ok false ∧ ruleIFRS15.sample df = .ok []
    ∧ (evaluate kb df).countP (fun f => f.Rule == "IFRS15_NEGREV") = 0 := by
  have hc : ruleIFRS15.check df = .ok false := by
    show IFRS15_check df = .ok false
    unfold IFRS15_check
    rw [h, ifrs15_any_false]
    rfl
  refine ⟨hc, ?_, ?_⟩
  · show IFRS15_sample df = .ok []
    unfold IFRS15_sample
    rw [h, ifrs15_filter_nil]
    rfl
  · have hmem : ruleIFRS15 ∈ build_catalogue := by simp [build_catalogue]
    have hcount := countP_evaluateCat kb df build_catalogue ruleIFRS15 hmem catalogue_ids_nodup
    rw [evalRule_eq_none_of_check_false kb df ruleIFRS15 hc] at hcount
    simpa using hcount

/-- C3 witness: the rounded-cash ledger has an amount column, and the
negative-revenue rule stays silent on it. -/
theorem negrev_rule_vacuous_witness :
    dfRounded.hasAmount = true
    ∧ (ruleIFRS15.check dfRounded = .ok false ∧ ruleIFRS15.sample dfRounded = .ok []
       ∧ (evaluate kbNone dfRounded).countP (fun f => f.Rule == "IFRS15_NEGREV") = 0) :=
  ⟨rfl, negrev_rule_vacuous kbNone dfRounded rfl⟩

/-! ## Claim C7 -/

/-- C7: when a rule's check is true and its sample returns cleanly,
the emitted finding's detail is the row count followed by
` offending rows` for a non-empty sample and `Breach detected` for an
empty one. -/
theorem detail_counts_sample_rows (kb : String → Option KBEntry) (df : DataFrame)
    (r : Rule) (rows : List Row) (hmem : r ∈ build_catalogue)
    (hc : r.check df = .ok true) (hs : r.sample df = .ok rows) :
    ∃ f ∈ evaluate kb df, f.Rule = r.id
      ∧ f.Detail = (if rows.isEmpty then "Breach detected"
                    else toString rows.length ++ " offending rows") := by
  have he : evalRule kb df r
      = some (mkFinding kb r
          (if rows.isEmpty then "Breach detected"
           else toString rows.length ++ " offending rows")) := by
    unfold evalRule
    rw [hc, hs]
  refine ⟨mkFinding kb r _, ?_, mkFinding_Rule kb r _, mkFinding_Detail kb r _⟩
  exact List.mem_filterMap.mpr ⟨r, hmem, he⟩

/-- C7 witness: the lease ledger triggers IFRS16 with a one-row
sample, so the detail reads `1 offending rows`. -/
theorem detail_counts_sample_rows_witness :
    ruleIFRS16.check dfLease = .ok true
    ∧ ruleIFRS16.sample dfLease = .ok dfLease.rows
    ∧ (if dfLease.rows.isEmpty then "Breach detected"
       else toString dfLease.rows.length ++ " offending rows") = "1 offending rows"
    ∧ ∃ f ∈ evaluate kbNone dfLease, f.Rule = ruleIFRS16.id
        ∧ f.Detail = (if dfLease.rows.isEmpty then "Breach detected"
                      else toString dfLease.rows.length ++ " offending rows") :=
  ⟨by decide, by decide, by decide,
   detail_counts_sample_rows kbNone dfLease ruleIFRS16 dfLease.rows
     (by simp [build_catalogue]) (by decide) (by decide)⟩

/-! ## Claim C5 -/

/-- C5: scoring an empty ledger (date and amount columns present,
model artifact available) returns an empty score series without
raising. -/
theorem empty_ledger_empty_scores (predict : Feature → ℚ) (df : DataFrame)
    (h0 : df.rows = []) (hd : df.hasDate = true) (ha : df.hasAmount = true) :
    score_transactions true predict df = .ok [] := by
  unfold score_transactions feature_df
  rw [hd, ha, h0]
  rfl

/-- C5 witness: the concrete empty ledger scores to the empty list. -/
theorem empty_ledger_empty_scores_witness :
    score_transactions true (fun _ => 0) dfEmpty = .ok [] :=
  empty_ledger_empty_scores (fun _ => 0) dfEmpty rfl rfl rfl

/-! ## Claim C6 -/

theorem round1_nonneg (x : ℚ) (h : 0 ≤ x) : 0 ≤ round1 x := by
  unfold round1
  have h1 : (0 : ℤ) ≤ round (x * 10) := by
    rw [round_eq]
    rw [Int.floor_nonneg]
    linarith
  have h2 : (0 : ℚ) ≤ ((round (x * 10) : ℤ) : ℚ) := by exact_mod_cast h1
  positivity

theorem round1_le_hundred (x : ℚ) (h : x ≤ 100) : round1 x ≤ 100 := by
  unfold round1
  have h1 : round (x * 10) ≤ 1000 := by
    rw [round_eq]
    have : ⌊(1000 : ℚ) + 1 / 2⌋ = 1000 := by
      rw [Int.floor_eq_iff]
      norm_num
    calc ⌊x * 10 + 1 / 2⌋ ≤ ⌊(1000 : ℚ) + 1 / 2⌋ := Int.floor_le_floor (by linarith)
      _ = 1000 := this
  have h2 : ((round (x * 10) : ℤ) : ℚ) ≤ 1000 := by exact_mod_cast h1
  linarith

/-- C6: with the artifact present and classifier probabilities in
[0,1], `score_transactions` returns one value per row in row order,
each the probability scaled by 100 and rounded to one decimal, and
hence in [0,100]. -/
theorem scores_are_scaled_probabilities (predict : Feature → ℚ) (df : DataFrame)
    (hd : df.hasDate = true) (ha : df.hasAmount = true)
    (hp : ∀ f, 0 ≤ predict f ∧ predict f ≤ 1) :
    score_transactions true predict df
      = .ok (df.rows.map (fun r => round1 (predict (featureRow (minDate df.rows) r) * 100)))
    ∧ ∀ q ∈ df.rows.map (fun r => round1 (predict (featureRow (minDate df.rows) r) * 100)),
        0 ≤ q ∧ q ≤ 100 := by
  constructor
  · unfold score_transactions feature_df
    rw [hd, ha]
    simp [List.map_map, Function.comp]
  · intro q hq
    obtain ⟨r, _, rfl⟩ := List.mem_map.mp hq
    obtain ⟨h0, h1⟩ := hp (featureRow (minDate df.rows) r)
    exact ⟨round1_nonneg _ (by linarith), round1_le_hundred _ (by linarith)⟩

/-- C6 witness: a constant one-half classifier on the lease ledger. -/
theorem scores_are_scaled_probabilities_witness :
    score_transactions true (fun _ => 1 / 2) dfLease
      = .ok (dfLease.rows.map
          (fun r => round1 ((fun _ : Feature => (1 : ℚ) / 2) (featureRow (minDate dfLease.rows) r) * 100)))
    ∧ ∀ q ∈ dfLease.rows.map
          (fun r => round1 ((fun _ : Feature => (1 : ℚ) / 2) (featureRow (minDate dfLease.rows) r) * 100)),
        0 ≤ q ∧ q ≤ 100 :=
  scores_are_scaled_probabilities (fun _ => 1 / 2) dfLease rfl rfl
    (fun _ => by norm_num)

/-! ## Claim C10 -/

/-- C10: the jurisdiction filter is idempotent and returns only
findings of the input list, unmodified. -/
theorem region_filter_idempotent (region : String) (fs : List Finding) :
    filterByRegion region (filterByRegion region fs) = filterByRegion region fs
    ∧ ∀ f ∈ filterByRegion region fs, f ∈ fs := by
  constructor
  · unfold filterByRegion
    rw [List.filter_filter]
    simp [Bool.and_self]
  · intro f hf
    exact List.mem_of_mem_filter hf

/-- C10 witness: filtering the sample findings by the US region twice
equals filtering once, and a filtered finding is an original one. -/
theorem region_filter_idempotent_witness :
    (filterByRegion "US (GAAP)" (filterByRegion "US (GAAP)" fsSample)
       = filterByRegion "US (GAAP)" fsSample)
    ∧ mkFinding kbNone ruleGAAPRND "1 offending rows" ∈ fsSample :=
  ⟨(region_filter_idempotent "US (GAAP)" fsSample).1,
   (region_filter_idempotent "US (GAAP)" fsSample).2
     (mkFinding kbNone ruleGAAPRND "1 offending rows") (by decide)⟩

/-! ## Claim C8 -/

theorem pymod_eq_zero_iff (x m : ℚ) (hm : m ≠ 0) :
    pymod x m = 0 ↔ ∃ k : ℤ, x = m * k := by
  unfold pymod
  constructor
  · intro h
    exact ⟨⌊x / m⌋, by linarith⟩
  · rintro ⟨k, rfl⟩
    have hq : m * (k : ℚ) / m = (k : ℚ) := mul_div_cancel_left₀ _ hm
    rw [hq, Int.floor_intCast]
    ring

theorem abs_thousand_multiple_iff (q : ℚ) :
    (∃ k : ℤ, q = 1000 * k) ↔ (∃ k : ℤ, |q| = 1000 * k) := by
  constructor
  · rintro ⟨k, rfl⟩
    refine ⟨|k|, ?_⟩
    rw [abs_mul, abs_of_pos (by norm_num : (0 : ℚ) < 1000), ← Int.cast_abs]
  · rintro ⟨k, hk⟩
    rcases abs_cases q with ⟨h1, _⟩ | ⟨h1, _⟩
    · exact ⟨k, by rw [← h1]; exact hk⟩
    · refine ⟨-k, ?_⟩
      push_cast
      linarith

theorem pymod_25500_ne_zero : pymod (-25500 : ℚ) 1000 ≠ 0 := by
  intro h
  obtain ⟨k, hk⟩ := (pymod_eq_zero_iff (-25500 : ℚ) 1000 (by norm_num)).mp h
  have hz : (-25500 : ℤ) = 1000 * k := by exact_mod_cast hk
  omega

/-- C8: the rounded-cash red flag holds of a row exactly when its
amount is negative, a multiple of 1000 in magnitude, and exceeds
20,000 in magnitude; -25000 flags while -25500 and -15000 do not, and
the flagged subset is reported under the `Rounded cash` label. -/
theorem rounded_cash_characterisation :
    (∀ r : Row, redFlagRounded r = true
       ↔ ∃ q : ℚ, r.amount = some q ∧ q < 0
           ∧ (∃ k : ℤ, |q| = 1000 * k) ∧ 20000 < |q|)
    ∧ redFlagRounded ⟨none, none, some (-25000)⟩ = true
    ∧ redFlagRounded ⟨none, none, some (-25500)⟩ = false
    ∧ redFlagRounded ⟨none, none, some (-15000)⟩ = false
    ∧ (∀ df tables, detect_red_flags df = .ok tables →
         df.rows.filter redFlagRounded ≠ [] →
         (df.rows.filter redFlagRounded, "Rounded cash") ∈ tables) := by
  refine ⟨?_, ?_, ?_, ?_, ?_⟩
  · intro r
    cases hra : r.amount with
    | none => simp [redFlagRounded, optLT, optModEqZero, optAbsGT, hra]
    | some q =>
      simp only [redFlagRounded, optLT, optModEqZero, optAbsGT, hra,
        Bool.and_eq_true, decide_eq_true_eq]
      constructor
      · rintro ⟨⟨h1, h2⟩, h3⟩
        exact ⟨q, rfl, h1,
          (abs_thousand_multiple_iff q).mp
            ((pymod_eq_zero_iff q 1000 (by norm_num)).mp h2), h3⟩
      · rintro ⟨q', hq', h1, h2, h3⟩
        obtain rfl : q = q' := Option.some.inj hq'
        exact ⟨⟨h1, (pymod_eq_zero_iff q 1000 (by norm_num)).mpr
            ((abs_thousand_multiple_iff q).mpr h2)⟩, h3⟩
  · simp only [redFlagRounded, optLT, optModEqZero, optAbsGT,
      Bool.and_eq_true, decide_eq_true_eq]
    refine ⟨⟨by norm_num, ?_⟩, by norm_num⟩
    exact (pymod_eq_zero_iff _ _ (by norm_num)).mpr ⟨-25, by norm_num⟩
  · rw [Bool.eq_false_iff]
    intro h
    simp only [redFlagRounded, optLT, optModEqZero, optAbsGT,
      Bool.and_eq_true, decide_eq_true_eq] at h
    exact pymod_25500_ne_zero h.1.2
  · rw [Bool.eq_false_iff]
    intro h
    simp only [redFlagRounded, optLT, optModEqZero, optAbsGT,
      Bool.and_eq_true, decide_eq_true_eq] at h
    have := h.2
    norm_num at this
  · intro df tables hok hne
    unfold detect_red_flags at hok
    cases hd : df.hasDate with
    | false => rw [hd] at hok; simp at hok
    | true =>
      rw [hd] at hok
      cases ha : df.hasAmount with
      | false => rw [ha] at hok; simp at hok
      | true =>
        rw [ha] at hok
        cases hdd : df.hasDescription with
        | false => rw [hdd] at hok; simp at hok
        | true =>
          rw [hdd] at hok
          simp only [Bool.not_true, Bool.false_eq_true, if_false] at hok
          have hemp : (df.rows.filter redFlagRounded).isEmpty = false := by
            rw [List.isEmpty_eq_false_iff_exists_mem]
            rcases List.exists_mem_of_ne_nil _ hne with ⟨x, hx⟩
            exact ⟨x, hx⟩
          rw [hemp] at hok
          injection hok with hok
          rw [← hok]
          simp

/-- C8 witness: the rounded ledger's flag tables contain its one-row
rounded-cash subset. -/
theorem rounded_cash_characterisation_witness :
    redFlagRounded ⟨some 0, some "cash", some (-25000)⟩ = true
    ∧ ∀ tables, detect_red_flags dfRounded = .ok tables →
        (dfRounded.rows.filter redFlagRounded, "Rounded cash") ∈ tables := by
  constructor
  · exact (rounded_cash_characterisation.1 ⟨some 0, some "cash", some (-25000)⟩).mpr
      ⟨-25000, rfl, by norm_num, ⟨25, by norm_num⟩, by norm_num⟩
  · intro tables hok
    refine rounded_cash_characterisation.2.2.2.2 dfRounded tables hok ?_
    intro hnil
    have h1 : redFlagRounded ⟨some 0, some "cash", some (-25000)⟩ = true :=
      (rounded_cash_characterisation.1 _).mpr
        ⟨-25000, rfl, by norm_num, ⟨25, by norm_num⟩, by norm_num⟩
    have h2 : (⟨some 0, some "cash", some (-25000)⟩ : Row)
        ∈ dfRounded.rows.filter redFlagRounded := by
      rw [List.mem_filter]
      exact ⟨by simp [dfRounded], h1⟩
    rw [hnil] at h2
    cases h2

/-! ## Claim C9 -/

instance : IsTotal (String × ℚ) (fun a b => |b.2| ≤ |a.2|) :=
  ⟨fun a b => le_total |b.2| |a.2|⟩

instance : IsTrans (String × ℚ) (fun a b => |b.2| ≤ |a.2|) :=
  ⟨fun _ _ _ hab hbc => le_trans hbc hab⟩

theorem sortByAbsDesc_perm (contrib : List (String × ℚ)) :
    (sortByAbsDesc contrib).Perm contrib :=
  List.perm_insertionSort _ contrib

theorem sortByAbsDesc_sorted (contrib : List (String × ℚ)) :
    List.Sorted (fun a b => |b.2| ≤ |a.2|) (sortByAbsDesc contrib) :=
  List.sorted_insertionSort _ contrib

theorem topFeatures_eq_nil_iff (contrib : List (String × ℚ)) :
    topFeatures contrib = [] ↔ ∀ p ∈ contrib, |p.2| ≤ 1 / 100 := by
  unfold topFeatures
  rw [List.filterMap_eq_nil_iff]
  constructor
  · intro h p hp
    by_contra hgt
    push_neg at hgt
    have hps : p ∈ sortByAbsDesc contrib := (sortByAbsDesc_perm contrib).symm.subset hp
    obtain ⟨hd, tl, hcons⟩ : ∃ hd tl, sortByAbsDesc contrib = hd :: tl := by
      cases hs : sortByAbsDesc contrib with
      | nil => rw [hs] at hps; cases hps
      | cons hd tl => exact ⟨hd, tl, rfl⟩
    have hhd : 1 / 100 < |hd.2| := by
      have hpht : p ∈ hd :: tl := by rw [hcons] at hps; exact hps
      rcases List.mem_cons.mp hpht with rfl | hmem
      · exact hgt
      · have hsorted := sortByAbsDesc_sorted contrib
        rw [hcons] at hsorted
        have := (List.pairwise_cons.mp hsorted).1 p hmem
        exact lt_of_lt_of_le hgt this
    have hhd3 : hd ∈ (sortByAbsDesc contrib).take 3 := by
      rw [hcons]
      exact List.mem_cons_self hd _
    have := h hd hhd3
    rw [if_pos hhd] at this
    cases this
  · intro h p hp
    have hpc : p ∈ contrib :=
      (sortByAbsDesc_perm contrib).subset (List.mem_of_mem_take hp)
    rw [if_neg]
    exact not_lt.mpr (h p hpc)

theorem reasonsOf_length_le (contrib : List (String × ℚ)) :
    (reasonsOf contrib).length ≤ 3 := by
  unfold reasonsOf topFeatures
  rw [List.length_map]
  exact le_trans (List.length_filterMap_le _ _) (List.length_take_le _ _)

/-- C9 (amended): the explanation sorts attributions by descending
absolute value, keeps at most three whose magnitude exceeds 0.01,
maps them through the glossary with pass-through for unmapped names,
and the reasons list is empty exactly when no attribution magnitude
exceeds 0.01, in which case the no-dominant-feature fallback sentence
is produced. -/
theorem explanation_reasons_amended (contrib : List (String × ℚ)) (riskStr : String) :
    (sortByAbsDesc contrib).Perm contrib
    ∧ List.Sorted (fun a b => |b.2| ≤ |a.2|) (sortByAbsDesc contrib)
    ∧ (reasonsOf contrib).length ≤ 3
    ∧ reasonsOf contrib = (topFeatures contrib).map glossaryMap
    ∧ (∀ fname ∈ topFeatures contrib, ∃ p ∈ contrib, p.1 = fname ∧ 1 / 100 < |p.2|)
    ∧ (∀ fname, featureGlossary.find? (fun p => p.1 == fname) = none →
        glossaryMap fname = fname)
    ∧ (reasonsOf contrib = [] ↔ ∀ p ∈ contrib, |p.2| ≤ 1 / 100)
    ∧ ((∀ p ∈ contrib, |p.2| ≤ 1 / 100) →
        shap_explanation contrib riskStr
          = "This transaction was flagged as " ++ riskStr
            ++ "% risk (no dominant feature detected).") := by
  have hreason_nil : reasonsOf contrib = [] ↔ topFeatures contrib = [] := by
    unfold reasonsOf
    simp
  refine ⟨sortByAbsDesc_perm contrib, sortByAbsDesc_sorted contrib,
    reasonsOf_length_le contrib, rfl, ?_, ?_, ?_, ?_⟩
  · intro fname hf
    unfold topFeatures at hf
    obtain ⟨p, hp, hsome⟩ := List.mem_filterMap.mp hf
    have hpc : p ∈ contrib :=
      (sortByAbsDesc_perm contrib).subset (List.mem_of_mem_take hp)
    by_cases hgt : 1 / 100 < |p.2|
    · rw [if_pos hgt] at hsome
      exact ⟨p, hpc, Option.some.inj hsome, hgt⟩
    · rw [if_neg hgt] at hsome
      cases hsome
  · intro fname h
    unfold glossaryMap
    rw [h]
    rfl
  · rw [hreason_nil]
    exact topFeatures_eq_nil_iff contrib
  · intro h
    have htop : topFeatures contrib = [] := (topFeatures_eq_nil_iff contrib).mpr h
    unfold shap_explanation
    rw [htop]
    rfl

/-- C9 counterexample: a single attribution of magnitude exactly 0.01
produces an empty reasons list and the fallback sentence, although
not every magnitude is strictly below 0.01 — the claim's boundary
condition is off. -/
theorem explanation_reasons_counterexample :
    reasonsOf [("Amount", (1 : ℚ) / 100)] = []
    ∧ ¬ (∀ p ∈ [(("Amount" : String), (1 : ℚ) / 100)], |p.2| < 1 / 100)
    ∧ shap_explanation [("Amount", (1 : ℚ) / 100)] "50.0"
        = "This transaction was flagged as 50.0% risk (no dominant feature detected)." := by
  have habs : |(1 : ℚ) / 100| = 1 / 100 := abs_of_pos (by norm_num)
  have hall : ∀ p ∈ [(("Amount" : String), (1 : ℚ) / 100)], |p.2| ≤ 1 / 100 := by
    intro p hp
    rcases List.mem_singleton.mp hp with rfl
    rw [habs]
  have htop : topFeatures [("Amount", (1 : ℚ) / 100)] = [] :=
    (topFeatures_eq_nil_iff _).mpr hall
  refine ⟨?_, ?_, ?_⟩
  · unfold reasonsOf
    rw [htop]
    rfl
  · intro h
    have hlt := h ("Amount", (1 : ℚ) / 100) (List.mem_singleton.mpr rfl)
    rw [habs] at hlt
    exact lt_irrefl _ hlt
  · unfold shap_explanation
    rw [htop]
    rfl

/-- C9 witness: the amended theorem applied at the boundary input
yields the fallback sentence. -/
theorem explanation_reasons_amended_witness :
    shap_explanation [("Amount", (1 : ℚ) / 100)] "50.0"
      = "This transaction was flagged as " ++ "50.0"
        ++ "% risk (no dominant feature detected)." :=
  (explanation_reasons_amended [("Amount", (1 : ℚ) / 100)] "50.0").2.2.2.2.2.2.2
    (by
      intro p hp
      rcases List.mem_singleton.mp hp with rfl
      rw [abs_of_pos (by norm_num : (0 : ℚ) < 1 / 100)])

/-! ## Claim C4 -/

theorem gaapRndPred_neg25000 :
    gaapRndPred ⟨some 0, none, some (-25000)⟩ = true := by
  unfold gaapRndPred optModEqZero optAbsGT
  have h1 : pymod (-25000 : ℚ) 1000 = 0 :=
    (pymod_eq_zero_iff _ _ (by norm_num)).mpr ⟨-25, by norm_num⟩
  have h2 : (20000 : ℚ) < |(-25000 : ℚ)| := by
    rw [abs_of_neg (by norm_num : (-25000 : ℚ) < 0)]
    norm_num
  simp [h1, h2]
  norm_num

/-- C4 (amended): `normalise_df` fails fast with the validation
message when a required column is missing after aliasing, and fraud
scoring on a table without its date or amount column raises; but rule
evaluation does not fail on such a table — `evaluate` catches each
rule's error and still returns a findings list containing an
`[Engine Error]` finding for the affected rule. -/
theorem validation_failfast_amended :
    (∀ fr : RawFrame,
      ((normCols fr).map Prod.fst).contains "date" = false
        ∨ ((normCols fr).map Prod.fst).contains "description" = false
        ∨ ((normCols fr).map Prod.fst).contains "amount" = false →
      normalise_df fr
        = .error ("Your data must have columns for date, description, and amount. Found: "
            ++ toString ((normCols fr).map Prod.fst)))
    ∧ (∀ (present : Bool) (predict : Feature → ℚ) (df : DataFrame),
        df.hasDate = false ∨ df.hasAmount = false →
        ∃ e, score_transactions present predict df = .error e)
    ∧ (∀ (kb : String → Option KBEntry) (df : DataFrame) (r : Rule) (e : String),
        r ∈ build_catalogue → r.check df = .error e →
        mkFinding kb r ("[Engine Error] " ++ e) ∈ evaluate kb df) := by
  refine ⟨?_, ?_, ?_⟩
  · intro fr h
    have hcond : (((normCols fr).map Prod.fst).contains "date"
        && ((normCols fr).map Prod.fst).contains "description"
        && ((normCols fr).map Prod.fst).contains "amount") = false := by
      rcases h with h | h | h <;> simp only [h, Bool.false_and, Bool.and_false]
    simp only [normalise_df, hcond, Bool.false_eq_true, if_false]
  · intro present predict df h
    cases present with
    | false => exact ⟨_, rfl⟩
    | true =>
      unfold score_transactions feature_df
      cases hd : df.hasDate with
      | false => exact ⟨errDate, rfl⟩
      | true =>
        rcases h with h | h
        · rw [hd] at h
          cases h
        · rw [h]
          exact ⟨errAmount, rfl⟩
  · intro kb df r e hmem hc
    refine List.mem_filterMap.mpr ⟨r, hmem, ?_⟩
    unfold evalRule
    rw [hc]

/-- C4 counterexample: on a table missing the required description
column, `evaluate` returns results rather than surfacing a validation
failure — it even contains the GAAP rounded-numbers rule's ordinary
finding. -/
theorem validation_failfast_counterexample :
    dfNoDesc.hasDescription = false
    ∧ mkFinding kbNone ruleGAAPRND "1 offending rows" ∈ evaluate kbNone dfNoDesc := by
  refine ⟨rfl, ?_⟩
  refine List.mem_filterMap.mpr ⟨ruleGAAPRND, by simp [build_catalogue], ?_⟩
  have hc : ruleGAAPRND.check dfNoDesc = .ok true := by
    show GAAP_RND_check dfNoDesc = .ok true
    unfold GAAP_RND_check
    simp [dfNoDesc, gaapRndPred_neg25000]
  have hs : ruleGAAPRND.sample dfNoDesc = .ok [⟨some 0, none, some (-25000)⟩] := by
    show GAAP_RND_sample dfNoDesc = .ok _
    unfold GAAP_RND_sample
    simp [dfNoDesc, gaapRndPred_neg25000]
  unfold evalRule
  rw [hc, hs]
  have hdetail :
      (if ([(⟨some 0, none, some (-25000)⟩ : Row)] : List Row).isEmpty
       then "Breach detected"
       else toString ([(⟨some 0, none, some (-25000)⟩ : Row)] : List Row).length
         ++ " offending rows") = "1 offending rows" := by decide
  exact congrArg (fun d => some (mkFinding kbNone ruleGAAPRND d)) hdetail

/-- C4 witness: the amended theorem at concrete inputs — a raw frame
with no date column, a ledger with no date column, and the
description-less ledger whose IFRS16 check raises. -/
theorem validation_failfast_amended_witness :
    normalise_df frNoDate
      = .error ("Your data must have columns for date, description, and amount. Found: "
          ++ toString ((normCols frNoDate).map Prod.fst))
    ∧ (∃ e, score_transactions true (fun _ => 0) ⟨false, true, true, []⟩ = .error e)
    ∧ mkFinding kbNone ruleIFRS16 ("[Engine Error] " ++ errDescription)
        ∈ evaluate kbNone dfNoDesc :=
  ⟨validation_failfast_amended.1 frNoDate (by decide),
   validation_failfast_amended.2.1 true (fun _ => 0) ⟨false, true, true, []⟩ (Or.inl rfl),
   validation_failfast_amended.2.2 kbNone dfNoDesc ruleIFRS16 errDescription
     (by simp [build_catalogue]) (by decide)⟩

end Nxera
